import Mathlib

/-!
Formal model of the ATLAS robot controller, shallowly embedded from the
repository sources `agent.py`, `navigation.py` and `arm_control.py`.

Conventions of the embedding:
* Numeric quantities (waypoint coordinates, angles, distances, gains) are
  modelled as rationals `ℚ`; pixel errors are integers `ℤ`, as in the source
  where `error_x` is an integer pixel offset.
* Stateful Python objects become explicit state records threaded through
  functions.
* Unbounded `while` loops are modelled either with an explicit fuel argument
  (with a lemma showing that, under the claims' hypotheses, the fuel never
  truncates the loop) or over a finite or stream-shaped environment trace.
* Side effects on the motors are reified as a list of emitted `MotorCommand`s;
  prints, voice output and display windows have no bearing on any claim and
  are dropped, except for the abort-key check of the display window, which is
  an input of the trace.
-/

/-- The mission states of `agent.py` (`class AgentState(Enum)`). -/
inductive AgentState where
  | IDLE
  | LISTENING
  | PLANNING
  | SEARCHING
  | APPROACHING
  | GRASPING
  | RETURNING
  | TASK_COMPLETE
deriving DecidableEq, Repr

/-! ## NavigationPlanner (`navigation.py`, lines 4-51) -/

/-- One iteration of the `while y <= height_m` loop of
`NavigationPlanner.generate_lawnmower_path` (`navigation.py` lines 27-36),
with an explicit fuel argument.  Each step appends the two row endpoints in
the order given by `direction` (`1` sweeps rightward, `-1` leftward), then
advances `y` by `step_m` and flips the direction (`direction *= -1`). -/
def lawnmowerAux (width_m height_m step_m : ℚ) : ℕ → ℚ → ℤ → List (ℚ × ℚ)
  | 0, _, _ => []
  | fuel + 1, y, direction =>
    if y ≤ height_m then
      (if direction = 1 then [((0 : ℚ), y), (width_m, y)]
       else [(width_m, y), ((0 : ℚ), y)])
        ++ lawnmowerAux width_m height_m step_m fuel (y + step_m) (-direction)
    else []

/-- `NavigationPlanner.generate_lawnmower_path` (`navigation.py` lines 11-39):
starts at `y = 0` sweeping rightward (`direction = 1`).  The fuel
`⌊height_m / step_m⌋ + 1` is exactly the number of loop iterations when
`step_m > 0` (lemma `lawnmowerAux_fuel_sufficient`), so the `y ≤ height_m`
guard, not the fuel, ends the loop. -/
def generate_lawnmower_path (width_m height_m step_m : ℚ) : List (ℚ × ℚ) :=
  lawnmowerAux width_m height_m step_m (Nat.floor (height_m / step_m) + 1) 0 1

/-- Number of iterations the `while y <= height_m` loop still performs when
the loop variable stands at `y` (for a positive step): zero if the guard
already fails, else `⌊(height_m - y) / step_m⌋ + 1`. -/
def rowCount (height_m step_m y : ℚ) : ℕ :=
  if y ≤ height_m then Nat.floor ((height_m - y) / step_m) + 1 else 0

/-- The lawnmower path as the spec describes it, for comparison with
`generate_lawnmower_path`: one row per `j = 0, ..., ⌊H/S⌋` at height
`j * S` (consecutive rows spaced by exactly `S`, starting from `0`), each
row consisting of the two endpoints `x = 0` and `x = W`, sweeping rightward
on even rows and leftward on odd rows (alternating, rightward first). -/
def lawnmower_spec_rows (width_m height_m step_m : ℚ) : List (ℚ × ℚ) :=
  (List.range (Nat.floor (height_m / step_m) + 1)).flatMap (fun j =>
    if j % 2 = 0 then
      [((0 : ℚ), (j : ℚ) * step_m), (width_m, (j : ℚ) * step_m)]
    else
      [(width_m, (j : ℚ) * step_m), ((0 : ℚ), (j : ℚ) * step_m)])

/-- The mutable state of `NavigationPlanner` (`navigation.py` lines 7-9). -/
structure NavigationPlanner where
  breadcrumb_trail : List (ℚ × ℚ)
  current_position : ℚ × ℚ
deriving DecidableEq, Repr

/-- `NavigationPlanner.__init__`: empty trail, position `(0, 0)`. -/
def NavigationPlanner.init : NavigationPlanner := ⟨[], (0, 0)⟩

/-- `NavigationPlanner.record_breadcrumb` (`navigation.py` lines 41-44):
appends the position to the trail and updates `current_position`. -/
def record_breadcrumb (p : NavigationPlanner) (position : ℚ × ℚ) : NavigationPlanner :=
  ⟨p.breadcrumb_trail ++ [position], position⟩

/-- `NavigationPlanner.get_return_path` (`navigation.py` lines 46-51):
`[]` when the trail is empty (Python falsiness of the empty list), otherwise
the trail reversed (`self.breadcrumb_trail[::-1]`). -/
def get_return_path (p : NavigationPlanner) : List (ℚ × ℚ) :=
  if p.breadcrumb_trail.isEmpty then [] else p.breadcrumb_trail.reverse

/-- Recording a whole sequence of waypoints in order. -/
def record_all (p : NavigationPlanner) (ws : List (ℚ × ℚ)) : NavigationPlanner :=
  ws.foldl record_breadcrumb p

/-! ## VisualServoing (`navigation.py`, lines 54-212) -/

/-- The control parameters of `VisualServoing.__init__`
(`navigation.py` lines 57-74). -/
structure VisualServoing where
  center_tolerance_px : ℤ
  target_distance_cm : ℚ
  turn_gain : ℚ
deriving DecidableEq, Repr

/-- The parameter values set by `VisualServoing.__init__`:
tolerance `50` px, target distance `30` cm, gain `0.1` degrees per pixel. -/
def VisualServoing.init : VisualServoing := ⟨50, 30, 1/10⟩

/-- `VisualServoing.calculate_turn_angle` (`navigation.py` lines 76-93):
proportional term `error_x_px * turn_gain` clamped to `[-45, 45]`
(`max(-max_turn, min(max_turn, turn_angle))` with `max_turn = 45`). -/
def VisualServoing.calculate_turn_angle (vs : VisualServoing) (error_x_px : ℤ) : ℚ :=
  max (-45) (min 45 ((error_x_px : ℚ) * vs.turn_gain))

/-- `VisualServoing.is_centered` (`navigation.py` lines 95-105):
`abs(error_x_px) < self.center_tolerance_px`. -/
def VisualServoing.is_centered (vs : VisualServoing) (error_x_px : ℤ) : Bool :=
  decide (|error_x_px| < vs.center_tolerance_px)

/-- `VisualServoing.is_at_target_distance` (`navigation.py` lines 107-119):
`False` on `None`, else `distance_cm <= self.target_distance_cm`. -/
def VisualServoing.is_at_target_distance (vs : VisualServoing) (distance_cm : Option ℚ) : Bool :=
  match distance_cm with
  | none => false
  | some d => decide (d ≤ vs.target_distance_cm)

/-- Python truthiness of the `distance` value in
`if distance and self.is_at_target_distance(distance)`
(`navigation.py` line 172): `None` and `0` are falsy. -/
def distanceTruthy (distance : Option ℚ) : Bool :=
  match distance with
  | none => false
  | some d => decide (d ≠ 0)

/-- Motor commands issued to the `MotorController` by the servo loop. -/
inductive MotorCommand where
  | stop
  | turn_right (degrees : ℚ)
  | turn_left (degrees : ℚ)
  | move_forward
deriving DecidableEq, Repr

/-- What one iteration of `servo_to_target` observes from the environment:
frame capture can fail (`capture_frame()` returns `None`), detection may be
absent, or a detection yields a servoing error `error_x` and optional
`distance` together with whether the abort key was pressed in the display
window this iteration. -/
inductive ServoInput where
  | noFrame
  | noDetection
  | detected (error_x : ℤ) (distance : Option ℚ) (abort_key : Bool)
deriving DecidableEq, Repr

/-- The terminal outcomes of `servo_to_target`.  Only `reached` corresponds
to the Python function returning `True`; `captureFail`, `lostTarget` return
`False` early, and `userAbort` (the `break` on the abort key) falls through
to the same post-loop `return False` as `timeout`. -/
inductive ServoResult where
  | reached
  | captureFail
  | lostTarget
  | userAbort
  | timeout
deriving DecidableEq, Repr

/-- The Python return value of `servo_to_target` for each outcome. -/
def ServoResult.returnValue : ServoResult → Bool
  | .reached => true
  | _ => false

/-- The control step of `servo_to_target` (`navigation.py` lines 180-204):
if the object is not centered, turn right when the computed angle is
positive and left otherwise (with magnitude `abs(turn_angle)`); if centered,
move forward for a fixed duration. -/
def servo_control_commands (vs : VisualServoing) (error_x : ℤ) : List MotorCommand :=
  if vs.is_centered error_x = false then
    let turn_angle := vs.calculate_turn_angle error_x
    if turn_angle > 0 then [MotorCommand.turn_right |turn_angle|]
    else [MotorCommand.turn_left |turn_angle|]
  else [MotorCommand.move_forward]

/-- The `while iteration < max_iterations` loop of
`VisualServoing.servo_to_target` (`navigation.py` lines 139-212), recursing on
the remaining iteration budget.  Per iteration, in source order: frame capture
(`None` → return `False` with no motor command), detection (`None` → motor
stop, return `False`), display/abort-key check (pressed and `display` →
`break`, which reaches the post-loop `return False` with no motor command),
target-distance check (truthy distance at target → motor stop, return
`True`), then the control step.  Exhausting the budget is `timeout`. -/
def servoLoop (vs : VisualServoing) (display : Bool) (inp : ℕ → ServoInput) :
    ℕ → ℕ → List MotorCommand → List MotorCommand × ServoResult
  | 0, _, acc => (acc, ServoResult.timeout)
  | remaining + 1, iteration, acc =>
    match inp iteration with
    | ServoInput.noFrame => (acc, ServoResult.captureFail)
    | ServoInput.noDetection => (acc ++ [MotorCommand.stop], ServoResult.lostTarget)
    | ServoInput.detected error_x distance abort_key =>
      if display && abort_key then (acc, ServoResult.userAbort)
      else if distanceTruthy distance && vs.is_at_target_distance distance then
        (acc ++ [MotorCommand.stop], ServoResult.reached)
      else
        servoLoop vs display inp remaining (iteration + 1)
          (acc ++ servo_control_commands vs error_x)

/-- `VisualServoing.servo_to_target` (`navigation.py` lines 121-212):
`max_iterations = 100`, iteration counter starting at `0`, no commands
issued yet. -/
def servo_to_target (vs : VisualServoing) (display : Bool) (inp : ℕ → ServoInput) :
    List MotorCommand × ServoResult :=
  servoLoop vs display inp 100 0 []

/-! ## The SEARCHING handler (`agent.py`, `Agent._searching_state`, lines 161-270) -/

/-- What one iteration of the continuous-polling (laptop-camera) search loop
observes: `noFrame` when `capture_frame()` returns `None`, otherwise whether
`find_target_object` produced a detection and whether the abort key was
pressed at the per-iteration `cv2.waitKey(30)` check. -/
inductive SearchInput where
  | noFrame
  | frame (detected : Bool) (abort_key : Bool)
deriving DecidableEq, Repr

/-- Outcome of running the continuous search loop against a finite trace of
iteration inputs: either the loop exited and the handler set a next mission
state, or the trace was exhausted with the loop still running. -/
inductive SearchOutcome where
  | toState (s : AgentState)
  | stillSearching
deriving DecidableEq, Repr

/-- The continuous-polling branch of `Agent._searching_state`
(`agent.py` lines 172-225), the `while not object_found` loop over a trace of
per-iteration inputs.  In source order: a failed frame capture prints an
error and `break`s (then the `if not object_found` epilogue releases the
camera and sets IDLE); a detection sets the state to APPROACHING and
`break`s (the epilogue is skipped since `object_found` is true); otherwise
the abort key `break`s to the IDLE epilogue, and if it was not pressed the
loop continues with the next frame. -/
def searching_laptop : List SearchInput → SearchOutcome
  | [] => SearchOutcome.stillSearching
  | input :: rest =>
    match input with
    | SearchInput.noFrame => SearchOutcome.toState AgentState.IDLE
    | SearchInput.frame true _ => SearchOutcome.toState AgentState.APPROACHING
    | SearchInput.frame false abort_key =>
      if abort_key then SearchOutcome.toState AgentState.IDLE
      else searching_laptop rest

/-- What the waypoint-traversal search observes at one waypoint: whether the
front path is clear (affects only the avoidance maneuver, not the search
outcome) and the frame result — `none` when `capture_frame()` returns `None`
(the detection attempt is skipped for that waypoint), otherwise whether the
target was detected there. -/
structure WaypointInput where
  path_clear : Bool
  frame : Option Bool
deriving DecidableEq, Repr

/-- The `for i, point in enumerate(waypoints)` loop of the real-robot branch
of `Agent._searching_state` (`agent.py` lines 232-261): each waypoint is
navigated to and recorded as a breadcrumb; if a frame was captured and the
target detected, `object_found` becomes true, the state is set to
APPROACHING and the loop `break`s.  Returns the updated planner, the
`object_found` flag, and the state assignment made inside the loop (if any). -/
def searching_waypoints_loop (inp : ℕ → WaypointInput) :
    NavigationPlanner → List (ℚ × ℚ) → ℕ → NavigationPlanner × Bool
  | nav, [], _ => (nav, false)
  | nav, point :: rest, i =>
    let nav1 := record_breadcrumb nav point
    match (inp i).frame with
    | some true => (nav1, true)
    | _ => searching_waypoints_loop inp nav1 rest (i + 1)

/-- The real-robot branch of `Agent._searching_state`
(`agent.py` lines 227-270).  The waypoints are
`generate_lawnmower_path(5, 3, 0.5)`.  Inside the loop a detection sets the
state to APPROACHING; after the loop, `if not object_found` releases the
camera and sets IDLE — and then, unconditionally, lines 269-270 release the
camera again and set the state to IDLE regardless of `object_found`.  The
returned state is the value of `self.state` when the handler returns. -/
def searching_waypoints (inp : ℕ → WaypointInput) (nav : NavigationPlanner) :
    NavigationPlanner × AgentState :=
  let waypoints := generate_lawnmower_path 5 3 (1/2)
  let result := searching_waypoints_loop inp nav waypoints 0
  let _state_after_loop :=
    if result.2 then AgentState.APPROACHING else AgentState.IDLE
  (result.1, AgentState.IDLE)

/-! ## The GRASPING handler (`agent.py`, `Agent._grasping_state`, lines 288-316) -/

/-- The structured plan produced by the Planner Port and stored in
`self.current_plan` (the spec's Intent record). -/
structure Intent where
  action : String
  object_description : String
  object_color : String
deriving DecidableEq, Repr

/-- `Agent._grasping_state` (`agent.py` lines 288-316), generic in the
arm/gripper state `σ` with `grab` embedding `self.arm.grab_object()` and
check embedding `self.gripper.check_grip()`: grab, check; on a false check,
grab again and check again; the first true check goes to RETURNING, two
false checks go to IDLE.  Returns the final arm/gripper state, the (never
modified) `current_plan`, the next mission state, and the number of
`check_grip` calls made. -/
def grasping_state {σ : Type} (grab : σ → σ) (check : σ → Bool)
    (st : σ) (plan : Option Intent) : σ × Option Intent × AgentState × ℕ :=
  let st1 := grab st
  if check st1 then (st1, plan, AgentState.RETURNING, 1)
  else
    let st2 := grab st1
    if check st2 then (st2, plan, AgentState.RETURNING, 2)
    else (st2, plan, AgentState.IDLE, 2)

/-- An oracle arm state for `grasping_state` in which the result of the
`i`-th `check_grip` call is an arbitrary boolean `results i`: each
`grab_object` advances the attempt counter, and `check_grip` reads the
oracle at the current counter.  This models `check_grip` as the external
Actuation Port contract `check_grip() -> bool`. -/
def oracleGrab (s : ℕ × (ℕ → Bool)) : ℕ × (ℕ → Bool) := (s.1 + 1, s.2)

/-- The oracle `check_grip`: the result recorded for the current attempt. -/
def oracleCheck (s : ℕ × (ℕ → Bool)) : Bool := s.2 s.1

/-- `Agent._grasping_state` driven by an oracle giving the result of each
successive `check_grip` call (`results 1` is the first call's result,
`results 2` the second's). -/
def grasping_state_oracle (results : ℕ → Bool) (plan : Option Intent) :
    (ℕ × (ℕ → Bool)) × Option Intent × AgentState × ℕ :=
  grasping_state oracleGrab oracleCheck (0, results) plan

/-! ## The main loop (`agent.py`, `Agent.run`, lines 60-94) -/

/-- The observable behavior of the `try` body of one tick of `Agent.run`:
the dispatched state handler either returns normally leaving the mission
state at `next`, or a `KeyboardInterrupt` arrives, or the handler raises
some other exception with a message.  The handlers themselves are modelled
separately; here only their effect on the loop matters. -/
inductive TickBehavior where
  | normal (next : AgentState)
  | keyboardInterrupt
  | raises (msg : String)

/-- Outcome of running `Agent.run`'s `while True` loop for a bounded number
of ticks: either the loop is still running (with the current mission state),
or it exited via the `KeyboardInterrupt` shutdown `break`. -/
inductive RunOutcome where
  | running (s : AgentState)
  | shutdown
deriving DecidableEq, Repr

/-- The `while True` loop of `Agent.run` (`agent.py` lines 68-94) over a
stream of tick behaviors, observed for `fuel` ticks starting at tick `i`
with mission state `s`.  A normal tick continues with the handler's next
state; `KeyboardInterrupt` runs the shutdown sequence and `break`s; any
other exception is caught by the `except Exception` clause, which logs the
error, sets the state to IDLE, and continues looping. -/
def run_loop (beh : ℕ → TickBehavior) : ℕ → ℕ → AgentState → RunOutcome
  | 0, _, s => RunOutcome.running s
  | fuel + 1, i, s =>
    match beh i with
    | TickBehavior.normal next => run_loop beh fuel (i + 1) next
    | TickBehavior.keyboardInterrupt => RunOutcome.shutdown
    | TickBehavior.raises _ => run_loop beh fuel (i + 1) AgentState.IDLE

/-! ## Arm and gripper (`arm_control.py`) -/

/-- The five servos of the 4-DOF arm (`arm_control.py` lines 29-35). -/
inductive ServoName where
  | base
  | shoulder
  | elbow
  | wrist
  | gripper
deriving DecidableEq, Repr

/-- The pre-defined poses of `RoboticArm.__init__` (`arm_control.py`
lines 56-62). -/
inductive PoseName where
  | home
  | ready_to_grab
  | grab
  | lift
  | present
deriving DecidableEq, Repr

/-- The angles of each pre-defined pose (`arm_control.py` lines 56-62). -/
def poseAngles : PoseName → ServoName → ℚ
  | PoseName.home, ServoName.base => 90
  | PoseName.home, ServoName.shoulder => 90
  | PoseName.home, ServoName.elbow => 90
  | PoseName.home, ServoName.wrist => 90
  | PoseName.home, ServoName.gripper => 0
  | PoseName.ready_to_grab, ServoName.base => 90
  | PoseName.ready_to_grab, ServoName.shoulder => 45
  | PoseName.ready_to_grab, ServoName.elbow => 45
  | PoseName.ready_to_grab, ServoName.wrist => 0
  | PoseName.ready_to_grab, ServoName.gripper => 0
  | PoseName.grab, ServoName.base => 90
  | PoseName.grab, ServoName.shoulder => 45
  | PoseName.grab, ServoName.elbow => 45
  | PoseName.grab, ServoName.wrist => 0
  | PoseName.grab, ServoName.gripper => 180
  | PoseName.lift, ServoName.base => 90
  | PoseName.lift, ServoName.shoulder => 90
  | PoseName.lift, ServoName.elbow => 90
  | PoseName.lift, ServoName.wrist => 45
  | PoseName.lift, ServoName.gripper => 180
  | PoseName.present, ServoName.base => 90
  | PoseName.present, ServoName.shoulder => 135
  | PoseName.present, ServoName.elbow => 45
  | PoseName.present, ServoName.wrist => 90
  | PoseName.present, ServoName.gripper => 180

/-- The combined state of the `RoboticArm` (its `servo_positions` dict,
`arm_control.py` lines 38-44) and the `GripperController` constructed on it
(its `is_holding` flag, `arm_control.py` line 239). -/
structure RobotState where
  servo_pos : ServoName → ℚ
  is_holding : Bool

/-- Initial state: `servo_positions = {base: 90, shoulder: 90, elbow: 90,
wrist: 90, gripper: 0}` and `is_holding = False`. -/
def robotInit : RobotState :=
  ⟨fun n => match n with
    | ServoName.gripper => 0
    | _ => 90,
   false⟩

/-- `RoboticArm.set_servo_angle` (`arm_control.py` lines 97-132): the angle
is clamped to the servo limits, `(0, 180)` for every servo, and stored in
`servo_positions`.  The smooth-motion simulation only sleeps and is
dropped.  The `is_holding` flag of the gripper controller is untouched. -/
def set_servo_angle (st : RobotState) (servo_name : ServoName) (angle : ℚ) : RobotState :=
  let clamped := max 0 (min 180 angle)
  ⟨fun n => if n = servo_name then clamped else st.servo_pos n, st.is_holding⟩

/-- `RoboticArm.move_to_pose` (`arm_control.py` lines 134-152): applies
`set_servo_angle` to each servo of the pose, in the dict's insertion order
base, shoulder, elbow, wrist, gripper. -/
def move_to_pose (st : RobotState) (pose_name : PoseName) : RobotState :=
  [ServoName.base, ServoName.shoulder, ServoName.elbow, ServoName.wrist,
   ServoName.gripper].foldl
    (fun s n => set_servo_angle s n (poseAngles pose_name n)) st

/-- `RoboticArm.grab_object` (`arm_control.py` lines 154-173): move to
`ready_to_grab`, close the gripper via `set_servo_angle('gripper', 180)`
directly, then move to `lift`.  `is_holding` is never written. -/
def grab_object (st : RobotState) : RobotState :=
  move_to_pose (set_servo_angle (move_to_pose st PoseName.ready_to_grab)
    ServoName.gripper 180) PoseName.lift

/-- `RoboticArm.release_object` (`arm_control.py` lines 175-180): opens the
gripper servo directly; `is_holding` untouched. -/
def release_object (st : RobotState) : RobotState :=
  set_servo_angle st ServoName.gripper 0

/-- `RoboticArm.present_object` (`arm_control.py` lines 182-185). -/
def present_object (st : RobotState) : RobotState :=
  move_to_pose st PoseName.present

/-- `RoboticArm.return_to_home` (`arm_control.py` lines 187-190). -/
def return_to_home (st : RobotState) : RobotState :=
  move_to_pose st PoseName.home

/-- `GripperController.open_gripper` (`arm_control.py` lines 241-245):
opens the gripper servo and sets `is_holding = False`. -/
def open_gripper (st : RobotState) : RobotState :=
  let st1 := set_servo_angle st ServoName.gripper 0
  ⟨st1.servo_pos, false⟩

/-- The force-to-angle map of `GripperController.close_gripper`
(`arm_control.py` lines 254-260): `force_angles.get(force, 150)`. -/
def forceAngle (force : String) : ℚ :=
  if force = "light" then 120
  else if force = "medium" then 150
  else if force = "firm" then 180
  else 150

/-- `GripperController.close_gripper` (`arm_control.py` lines 247-263):
closes the gripper servo to the force's angle and sets `is_holding = True`. -/
def close_gripper (st : RobotState) (force : String) : RobotState :=
  let st1 := set_servo_angle st ServoName.gripper (forceAngle force)
  ⟨st1.servo_pos, true⟩

/-- `GripperController.check_grip` (`arm_control.py` lines 265-276): returns
exactly the `is_holding` flag. -/
def check_grip (st : RobotState) : Bool := st.is_holding

/-- The arm/gripper operations a mission can invoke, for stating what a
whole mission does to the gripper state. -/
inductive RobotOp where
  | set_servo (servo_name : ServoName) (angle : ℚ)
  | move_pose (pose_name : PoseName)
  | grab
  | release
  | present
  | home
  | openGrip
  | closeGrip (force : String)
deriving DecidableEq, Repr

/-- Interpreting one operation on the robot state. -/
def applyOp (st : RobotState) : RobotOp → RobotState
  | RobotOp.set_servo n a => set_servo_angle st n a
  | RobotOp.move_pose p => move_to_pose st p
  | RobotOp.grab => grab_object st
  | RobotOp.release => release_object st
  | RobotOp.present => present_object st
  | RobotOp.home => return_to_home st
  | RobotOp.openGrip => open_gripper st
  | RobotOp.closeGrip f => close_gripper st f

/-- Running a sequence of arm/gripper operations from a state. -/
def runOps (st : RobotState) (ops : List RobotOp) : RobotState :=
  ops.foldl applyOp st

/-! ## Theorems -/

lemma record_all_trail (ws : List (ℚ × ℚ)) :
    ∀ p : NavigationPlanner,
      (record_all p ws).breadcrumb_trail = p.breadcrumb_trail ++ ws := by
  induction ws with
  | nil => intro p; simp [record_all]
  | cons w ws ih =>
    intro p
    have h : record_all p (w :: ws) = record_all (record_breadcrumb p w) ws := rfl
    rw [h, ih]
    simp [record_breadcrumb]

/-- C6: recording any sequence of `N` waypoints and asking for the return
path yields exactly the reverse of the recorded order, and the return path
is empty exactly when no waypoints were recorded. -/
theorem breadcrumb_reversal (ws : List (ℚ × ℚ)) :
    get_return_path (record_all NavigationPlanner.init ws) = ws.reverse ∧
    (get_return_path (record_all NavigationPlanner.init ws) = [] ↔ ws = []) := by
  have htrail : (record_all NavigationPlanner.init ws).breadcrumb_trail = ws := by
    rw [record_all_trail]
    rfl
  have hmain : get_return_path (record_all NavigationPlanner.init ws) = ws.reverse := by
    unfold get_return_path
    rw [htrail]
    cases ws with
    | nil => rfl
    | cons w ws => rfl
  refine ⟨hmain, ?_⟩
  rw [hmain]
  exact List.reverse_eq_nil_iff

/-- C7: for every integer pixel error, the turn angle computed with the
controller's configured gain has magnitude at most `45` degrees, is
positive exactly on positive errors, negative on negative errors, and zero
on a zero error. -/
theorem turn_angle_clamp (e : ℤ) :
    |VisualServoing.init.calculate_turn_angle e| ≤ 45 ∧
    (0 < e → 0 < VisualServoing.init.calculate_turn_angle e) ∧
    (e < 0 → VisualServoing.init.calculate_turn_angle e < 0) ∧
    (e = 0 → VisualServoing.init.calculate_turn_angle e = 0) := by
  simp only [VisualServoing.calculate_turn_angle, VisualServoing.init]
  refine ⟨?_, ?_, ?_, ?_⟩
  · rw [abs_le]
    constructor
    · exact le_max_left _ _
    · exact max_le (by norm_num) (min_le_left _ _)
  · intro he
    have hq : (0 : ℚ) < (e : ℚ) * (1 / 10) := by
      have : (0 : ℚ) < (e : ℚ) := by exact_mod_cast he
      nlinarith
    exact lt_max_iff.mpr (Or.inr (lt_min (by norm_num) hq))
  · intro he
    have hq : (e : ℚ) * (1 / 10) < 0 := by
      have : (e : ℚ) < (0 : ℚ) := by exact_mod_cast he
      nlinarith
    exact max_lt (by norm_num) (lt_of_le_of_lt (min_le_right _ _) hq)
  · intro he
    subst he
    norm_num

/-- Witness for `turn_angle_clamp` at concrete errors `7`, `-7` and `0`. -/
theorem turn_angle_clamp_witness :
    |VisualServoing.init.calculate_turn_angle 7| ≤ 45 ∧
    0 < VisualServoing.init.calculate_turn_angle 7 ∧
    VisualServoing.init.calculate_turn_angle (-7) < 0 ∧
    VisualServoing.init.calculate_turn_angle 0 = 0 :=
  ⟨(turn_angle_clamp 7).1, (turn_angle_clamp 7).2.1 (by decide),
   (turn_angle_clamp (-7)).2.2.1 (by decide), (turn_angle_clamp 0).2.2.2 rfl⟩

/-- C4: an exception raised by a state handler during a tick is caught by
the top-level loop, which continues looping with the mission state forced
to IDLE; and as long as no tick delivers the shutdown interrupt the loop
never exits — the process does not terminate from a handler fault. -/
theorem tick_fault_isolation :
    (∀ (beh : ℕ → TickBehavior) (fuel i : ℕ) (s : AgentState) (msg : String),
      beh i = TickBehavior.raises msg →
      run_loop beh (fuel + 1) i s = run_loop beh fuel (i + 1) AgentState.IDLE) ∧
    (∀ (beh : ℕ → TickBehavior) (fuel i : ℕ) (s : AgentState),
      (∀ j, beh j ≠ TickBehavior.keyboardInterrupt) →
      ∃ s2, run_loop beh fuel i s = RunOutcome.running s2) := by
  constructor
  · intro beh fuel i s msg h
    simp [run_loop, h]
  · intro beh fuel
    induction fuel with
    | zero => intro i s _; exact ⟨s, rfl⟩
    | succ n ih =>
      intro i s h
      cases hb : beh i with
      | normal next =>
        simpa [run_loop, hb] using ih (i + 1) next h
      | keyboardInterrupt => exact absurd hb (h i)
      | raises msg =>
        simpa [run_loop, hb] using ih (i + 1) AgentState.IDLE h

/-- Witness for `tick_fault_isolation`: a tick that raises from SEARCHING
continues the loop at IDLE, and a stream with no interrupt keeps running. -/
theorem tick_fault_isolation_witness :
    run_loop (fun _ => TickBehavior.raises "fault") 1 0 AgentState.SEARCHING =
      run_loop (fun _ => TickBehavior.raises "fault") 0 1 AgentState.IDLE ∧
    ∃ s2, run_loop (fun _ => TickBehavior.raises "fault") 3 0 AgentState.SEARCHING =
      RunOutcome.running s2 :=
  ⟨tick_fault_isolation.1 _ 0 0 _ "fault" rfl,
   tick_fault_isolation.2 _ 3 0 _ (fun j h => by simp at h)⟩

/-- C3 counterexample: with both `check_grip` calls returning false, the
handler moves to IDLE but `current_plan` is left untouched — the Intent is
not cleared, contrary to the claim. -/
theorem grasp_double_failure_keeps_plan :
    (grasping_state_oracle (fun _ => false)
        (some ⟨"fetch", "red box", "red"⟩)).2.2.1 = AgentState.IDLE ∧
    (grasping_state_oracle (fun _ => false)
        (some ⟨"fetch", "red box", "red"⟩)).2.1 =
      some ⟨"fetch", "red box", "red"⟩ ∧
    (grasping_state_oracle (fun _ => false)
        (some ⟨"fetch", "red box", "red"⟩)).2.1 ≠ none := by
  refine ⟨rfl, rfl, ?_⟩
  decide

/-- C3 (amended): `check_grip` is called at most twice per GRASPING entry;
a true first check, or a false first and true second check (after one
re-attempted grasp), yields RETURNING; two false checks yield IDLE without
entering RETURNING, with the Intent retained (it is cleared only in
TASK_COMPLETE). -/
theorem grasp_retry_policy (results : ℕ → Bool) (plan : Option Intent) :
    ((grasping_state_oracle results plan).2.2.2 ≤ 2) ∧
    (results 1 = true →
      (grasping_state_oracle results plan).2.2.1 = AgentState.RETURNING ∧
      (grasping_state_oracle results plan).2.2.2 = 1) ∧
    (results 1 = false → results 2 = true →
      (grasping_state_oracle results plan).2.2.1 = AgentState.RETURNING ∧
      (grasping_state_oracle results plan).2.2.2 = 2) ∧
    (results 1 = false → results 2 = false →
      (grasping_state_oracle results plan).2.2.1 = AgentState.IDLE ∧
      (grasping_state_oracle results plan).2.2.1 ≠ AgentState.RETURNING ∧
      (grasping_state_oracle results plan).2.1 = plan ∧
      (grasping_state_oracle results plan).2.2.2 = 2) := by
  unfold grasping_state_oracle grasping_state oracleGrab oracleCheck
  cases h1 : results 1 <;> cases h2 : results 2 <;>
    simp [h1, h2]

/-- Witness for `grasp_retry_policy` across its three scenarios. -/
theorem grasp_retry_policy_witness :
    (grasping_state_oracle (fun _ => true) none).2.2.1 = AgentState.RETURNING ∧
    (grasping_state_oracle (fun n => decide (n = 2)) none).2.2.1 =
      AgentState.RETURNING ∧
    (grasping_state_oracle (fun _ => false) none).2.2.1 = AgentState.IDLE ∧
    (grasping_state_oracle (fun _ => false) none).2.1 = (none : Option Intent) :=
  ⟨((grasp_retry_policy (fun _ => true) none).2.1 rfl).1,
   ((grasp_retry_policy (fun n => decide (n = 2)) none).2.2.1 rfl rfl).1,
   ((grasp_retry_policy (fun _ => false) none).2.2.2 rfl rfl).1,
   ((grasp_retry_policy (fun _ => false) none).2.2.2 rfl rfl).2.2.1⟩

/-- C9 counterexample: a failed frame capture on the first continuous-search
iteration ends the search with a transition to IDLE — the following frame,
which would have produced a detection, is never processed, so the iteration
is not skipped and the loop does not continue. -/
theorem capture_fail_not_skipped :
    searching_laptop [SearchInput.noFrame, SearchInput.frame true false] =
      SearchOutcome.toState AgentState.IDLE ∧
    searching_laptop [SearchInput.noFrame, SearchInput.frame true false] ≠
      SearchOutcome.stillSearching ∧
    searching_laptop [SearchInput.noFrame, SearchInput.frame true false] ≠
      SearchOutcome.toState AgentState.APPROACHING := by
  refine ⟨rfl, ?_, ?_⟩ <;> decide

/-- C9 (amended): a frame-capture failure during continuous-polling search
is fatal for the search: the loop breaks immediately and the handler
returns to IDLE, regardless of what later frames would have shown. -/
theorem capture_fail_aborts_search (rest : List SearchInput) :
    searching_laptop (SearchInput.noFrame :: rest) =
      SearchOutcome.toState AgentState.IDLE := rfl

lemma applyOp_holds_of_not_close (st : RobotState) (op : RobotOp)
    (h : ∀ force, op ≠ RobotOp.closeGrip force) (hst : st.is_holding = false) :
    (applyOp st op).is_holding = false := by
  cases op with
  | set_servo n a => exact hst
  | move_pose p => exact hst
  | grab => exact hst
  | release => exact hst
  | present => exact hst
  | home => exact hst
  | openGrip => rfl
  | closeGrip f => exact absurd rfl (h f)

lemma runOps_holds_of_no_close (ops : List RobotOp) :
    ∀ st : RobotState, (∀ force, RobotOp.closeGrip force ∉ ops) →
      st.is_holding = false → (runOps st ops).is_holding = false := by
  induction ops with
  | nil => intro st _ hst; exact hst
  | cons op ops ih =>
    intro st h hst
    have hop : ∀ force, op ≠ RobotOp.closeGrip force := by
      intro force heq
      exact h force (heq ▸ List.mem_cons_self op ops)
    have hmem : ∀ force, RobotOp.closeGrip force ∉ ops := by
      intro force hmem
      exact h force (List.mem_cons_of_mem op hmem)
    have hstep : (applyOp st op).is_holding = false :=
      applyOp_holds_of_not_close st op hop hst
    exact ih (applyOp st op) hmem hstep

/-- C10: `check_grip` returns exactly the `is_holding` flag; `close_gripper`
is the only operation setting it true and `open_gripper` sets it false;
`grab_object` closes the gripper servo without touching the flag; hence
after any mission prefix that never calls `close_gripper`, both grip
verifications made by the GRASPING handler return false and the handler
ends in IDLE. -/
theorem grip_flag_only_close :
    (∀ st, check_grip st = st.is_holding) ∧
    (∀ st force, (close_gripper st force).is_holding = true) ∧
    (∀ st, (open_gripper st).is_holding = false) ∧
    (∀ st, (grab_object st).is_holding = st.is_holding) ∧
    (∀ (ops : List RobotOp) (plan : Option Intent),
      (∀ force, RobotOp.closeGrip force ∉ ops) →
      check_grip (grab_object (runOps robotInit ops)) = false ∧
      check_grip (grab_object (grab_object (runOps robotInit ops))) = false ∧
      (grasping_state grab_object check_grip (runOps robotInit ops) plan).2.2.1 =
        AgentState.IDLE) := by
  refine ⟨fun st => rfl, fun st force => rfl, fun st => rfl, fun st => rfl, ?_⟩
  intro ops plan h
  have hrun : (runOps robotInit ops).is_holding = false :=
    runOps_holds_of_no_close ops robotInit h rfl
  have h1 : check_grip (grab_object (runOps robotInit ops)) = false := hrun
  have h2 : check_grip (grab_object (grab_object (runOps robotInit ops))) = false := hrun
  refine ⟨h1, h2, ?_⟩
  simp [grasping_state, h1, h2]

/-- Witness for `grip_flag_only_close`: a mission prefix with a grasp, an
open-gripper release and a direct gripper-servo close, but no
`close_gripper` call. -/
theorem grip_flag_only_close_witness :
    check_grip (grab_object (runOps robotInit
      [RobotOp.grab, RobotOp.openGrip,
       RobotOp.set_servo ServoName.gripper 180])) = false ∧
    (grasping_state grab_object check_grip (runOps robotInit
      [RobotOp.grab, RobotOp.openGrip,
       RobotOp.set_servo ServoName.gripper 180]) none).2.2.1 = AgentState.IDLE := by
  have h := grip_flag_only_close.2.2.2.2
    [RobotOp.grab, RobotOp.openGrip, RobotOp.set_servo ServoName.gripper 180]
    none (by intro force hmem; simp at hmem)
  exact ⟨h.1, h.2.2⟩

/-- C1 (code defect record): in waypoint-traversal mode with a detection at
the very first waypoint, the in-loop `object_found` flag is set (the loop
did set the state to APPROACHING and break), yet the handler returns with
the mission state IDLE because of the unconditional post-loop reset at
`agent.py` lines 269-270; continuous-polling mode, by contrast, hands off
to APPROACHING as the claim states. -/
theorem waypoint_search_found_sets_idle :
    (searching_waypoints_loop (fun _ => ⟨true, some true⟩) NavigationPlanner.init
        (generate_lawnmower_path 5 3 (1/2)) 0).2 = true ∧
    (searching_waypoints (fun _ => ⟨true, some true⟩) NavigationPlanner.init).2 =
      AgentState.IDLE ∧
    searching_laptop [SearchInput.frame true false] =
      SearchOutcome.toState AgentState.APPROACHING := by
  refine ⟨by decide, rfl, rfl⟩

lemma stop_not_in_control (vs : VisualServoing) (e : ℤ) :
    MotorCommand.stop ∉ servo_control_commands vs e := by
  unfold servo_control_commands
  split_ifs with h1
  · dsimp only
    split_ifs with h2 <;> simp
  · simp

lemma servoLoop_stop_policy (vs : VisualServoing) (display : Bool)
    (inp : ℕ → ServoInput) :
    ∀ (remaining iteration : ℕ) (acc : List MotorCommand),
      MotorCommand.stop ∉ acc →
      ((servoLoop vs display inp remaining iteration acc).2 = ServoResult.lostTarget →
        (servoLoop vs display inp remaining iteration acc).1.getLast? =
          some MotorCommand.stop) ∧
      ((servoLoop vs display inp remaining iteration acc).2 = ServoResult.timeout ∨
        (servoLoop vs display inp remaining iteration acc).2 = ServoResult.userAbort ∨
        (servoLoop vs display inp remaining iteration acc).2 = ServoResult.captureFail →
        MotorCommand.stop ∉ (servoLoop vs display inp remaining iteration acc).1) := by
  intro remaining
  induction remaining with
  | zero =>
    intro iteration acc hacc
    constructor
    · intro h
      simp [servoLoop] at h
    · intro _
      simpa [servoLoop] using hacc
  | succ r ih =>
    intro iteration acc hacc
    cases hi : inp iteration with
    | noFrame =>
      constructor
      · intro h
        simp [servoLoop, hi] at h
      · intro _
        simpa [servoLoop, hi] using hacc
    | noDetection =>
      constructor
      · intro _
        simp [servoLoop, hi]
      · intro h
        simp [servoLoop, hi] at h
    | detected e d k =>
      by_cases h1 : (display && k) = true
      · constructor
        · intro h
          simp [servoLoop, hi, h1] at h
        · intro _
          simpa [servoLoop, hi, h1] using hacc
      · by_cases h2 : (distanceTruthy d && vs.is_at_target_distance d) = true
        · constructor
          · intro h
            simp [servoLoop, hi, h1, h2] at h
          · intro h
            simp [servoLoop, hi, h1, h2] at h
        · have hacc2 : MotorCommand.stop ∉ acc ++ servo_control_commands vs e := by
            rw [List.mem_append]
            rintro (hmem | hmem)
            · exact hacc hmem
            · exact stop_not_in_control vs e hmem
          have heq : servoLoop vs display inp (r + 1) iteration acc =
              servoLoop vs display inp r (iteration + 1)
                (acc ++ servo_control_commands vs e) := by
            simp [servoLoop, hi, h1, h2]
          rw [heq]
          exact ih (iteration + 1) (acc ++ servo_control_commands vs e) hacc2

/-- C2 counterexample: a user abort on the first servo iteration makes
`servo_to_target` return the user-abort failure with no motor command
issued at all — in particular no stop command — contradicting the claim
that all three failure outcomes stop actuation before returning. -/
theorem servo_abort_returns_without_stop :
    (servo_to_target VisualServoing.init true
        (fun _ => ServoInput.detected 0 none true)).2 = ServoResult.userAbort ∧
    MotorCommand.stop ∉
      (servo_to_target VisualServoing.init true
        (fun _ => ServoInput.detected 0 none true)).1 := by
  exact ⟨rfl, by decide⟩

/-- C2 (amended): of the failure outcomes of `servo_to_target`, only
`lost_target` issues a motor stop command before returning (it is the last
command issued); the `timeout` and user-abort outcomes return the failure
result without ever having issued a stop command. -/
theorem servo_stop_policy (vs : VisualServoing) (display : Bool)
    (inp : ℕ → ServoInput) :
    ((servo_to_target vs display inp).2 = ServoResult.lostTarget →
      (servo_to_target vs display inp).1.getLast? = some MotorCommand.stop) ∧
    ((servo_to_target vs display inp).2 = ServoResult.timeout ∨
      (servo_to_target vs display inp).2 = ServoResult.userAbort →
      MotorCommand.stop ∉ (servo_to_target vs display inp).1) := by
  have h := servoLoop_stop_policy vs display inp 100 0 [] (by simp)
  exact ⟨h.1, fun hr => h.2 (by tauto)⟩

/-- Witness for `servo_stop_policy`: losing the target on the first
iteration leaves a final stop command; aborting on the first iteration
leaves a command list without any stop. -/
theorem servo_stop_policy_witness :
    (servo_to_target VisualServoing.init false
        (fun _ => ServoInput.noDetection)).1.getLast? = some MotorCommand.stop ∧
    MotorCommand.stop ∉
      (servo_to_target VisualServoing.init true
        (fun _ => ServoInput.detected 5 none true)).1 :=
  ⟨(servo_stop_policy VisualServoing.init false
      (fun _ => ServoInput.noDetection)).1 rfl,
   (servo_stop_policy VisualServoing.init true
      (fun _ => ServoInput.detected 5 none true)).2 (Or.inr rfl)⟩

/-- C8: when the detection is within the centering tolerance the control
step issues exactly one forward move and no turn command; on such an
iteration (detection present, no abort, distance check not fired) the servo
loop appends exactly a forward move and continues; and with a zero error
the forward branch is taken for every value of the turn gain. -/
theorem servo_centering_forward :
    (∀ (vs : VisualServoing) (e : ℤ), |e| < vs.center_tolerance_px →
      servo_control_commands vs e = [MotorCommand.move_forward]) ∧
    (∀ (vs : VisualServoing) (display : Bool) (inp : ℕ → ServoInput)
        (remaining iteration : ℕ) (acc : List MotorCommand) (e : ℤ) (d : Option ℚ),
      inp iteration = ServoInput.detected e d false →
      (distanceTruthy d && vs.is_at_target_distance d) = false →
      |e| < vs.center_tolerance_px →
      servoLoop vs display inp (remaining + 1) iteration acc =
        servoLoop vs display inp remaining (iteration + 1)
          (acc ++ [MotorCommand.move_forward])) ∧
    (∀ g : ℚ, servo_control_commands ⟨50, 30, g⟩ 0 = [MotorCommand.move_forward]) := by
  have hA : ∀ (vs : VisualServoing) (e : ℤ), |e| < vs.center_tolerance_px →
      servo_control_commands vs e = [MotorCommand.move_forward] := by
    intro vs e he
    have hc : vs.is_centered e = true := decide_eq_true he
    simp [servo_control_commands, hc]
  refine ⟨hA, ?_, ?_⟩
  · intro vs display inp remaining iteration acc e d hi hd he
    simp [servoLoop, hi, hd, hA vs e he]
  · intro g
    refine hA ⟨50, 30, g⟩ 0 ?_
    show |(0 : ℤ)| < 50
    decide

lemma rowIf_eq (W : ℚ) {a b : ℤ} (hab : a = b) {u v : ℚ} (huv : u = v) :
    (if a = 1 then [((0 : ℚ), u), (W, u)] else [(W, u), ((0 : ℚ), u)]) =
    (if b = 1 then [((0 : ℚ), v), (W, v)] else [(W, v), ((0 : ℚ), v)]) := by
  subst hab
  subst huv
  rfl

lemma rowCount_succ {H S y : ℚ} (hS : 0 < S) (hy : y ≤ H) :
    rowCount H S y = rowCount H S (y + S) + 1 := by
  unfold rowCount
  rw [if_pos hy]
  by_cases h2 : y + S ≤ H
  · rw [if_pos h2]
    have key : (H - y) / S = (H - (y + S)) / S + 1 := by
      field_simp
      ring
    have hnn : (0 : ℚ) ≤ (H - (y + S)) / S :=
      div_nonneg (by linarith) hS.le
    rw [key, Nat.floor_add_one hnn]
  · rw [if_neg h2]
    have hlt : (H - y) / S < 1 := by
      rw [div_lt_one hS]
      linarith
    rw [Nat.floor_eq_zero.mpr hlt]

lemma lawnmowerAux_closed (W H S : ℚ) (hS : 0 < S) :
    ∀ (fuel : ℕ) (y : ℚ) (d : ℤ), H < y + (fuel : ℚ) * S →
      lawnmowerAux W H S fuel y d =
        (List.range (rowCount H S y)).flatMap (fun j =>
          if d * (-1) ^ j = 1 then [((0 : ℚ), y + (j : ℚ) * S), (W, y + (j : ℚ) * S)]
          else [(W, y + (j : ℚ) * S), ((0 : ℚ), y + (j : ℚ) * S)]) := by
  intro fuel
  induction fuel with
  | zero =>
    intro y d hfuel
    have hy : ¬ y ≤ H := by
      push_cast at hfuel
      intro hle
      linarith
    rw [lawnmowerAux]
    unfold rowCount
    rw [if_neg hy]
    rfl
  | succ f ih =>
    intro y d hfuel
    by_cases hy : y ≤ H
    · have hfuel2 : H < (y + S) + (f : ℚ) * S := by
        push_cast at hfuel
        linarith
      have hrec := ih (y + S) (-d) hfuel2
      rw [lawnmowerAux, if_pos hy, hrec, rowCount_succ hS hy,
        List.range_succ_eq_map, List.flatMap_cons, List.flatMap_map]
      have hhead :
          (if d * (-1) ^ (0 : ℕ) = 1 then [((0 : ℚ), y + ((0 : ℕ) : ℚ) * S), (W, y + ((0 : ℕ) : ℚ) * S)]
           else [(W, y + ((0 : ℕ) : ℚ) * S), ((0 : ℚ), y + ((0 : ℕ) : ℚ) * S)]) =
          (if d = 1 then [((0 : ℚ), y), (W, y)] else [(W, y), ((0 : ℚ), y)]) :=
        rowIf_eq W (by ring) (by push_cast; ring)
      rw [hhead]
      congr 1
      exact congrArg (List.flatMap (List.range (rowCount H S (y + S))))
        (funext fun j => rowIf_eq W
          (by show -d * (-1) ^ j = d * (-1) ^ (j + 1); rw [pow_succ]; ring)
          (by push_cast; ring))
    · rw [lawnmowerAux, if_neg hy]
      unfold rowCount
      rw [if_neg hy]
      rfl

lemma lawnmower_fuel_sufficient {H S : ℚ} (hS : 0 < S) :
    H < 0 + ((Nat.floor (H / S) + 1 : ℕ) : ℚ) * S := by
  have h1 : H / S < (Nat.floor (H / S) : ℚ) + 1 := Nat.lt_floor_add_one _
  have h2 : H / S * S < ((Nat.floor (H / S) : ℚ) + 1) * S :=
    mul_lt_mul_of_pos_right h1 hS
  rw [div_mul_cancel₀ H hS.ne'] at h2
  push_cast
  linarith

/-- C5: for nonnegative `W`, `H` and positive step `S`, the generated
lawnmower path is exactly the row-indexed path of the spec — row `j` at
height `j * S` for `j = 0, ..., ⌊H/S⌋` (rows spaced by `S` starting at
`0`), each row the two endpoints `x = 0` and `x = W`, sweep direction
alternating with the rightward sweep first; the last row's height `y`
satisfies `y ≤ H < y + S`; and every generated point lies in
`[0, W] × [0, H]`. -/
theorem lawnmower_coverage (W H S : ℚ) (hW : 0 ≤ W) (hH : 0 ≤ H) (hS : 0 < S) :
    generate_lawnmower_path W H S = lawnmower_spec_rows W H S ∧
    ((Nat.floor (H / S) : ℚ) * S ≤ H ∧ H < (Nat.floor (H / S) : ℚ) * S + S) ∧
    (∀ p ∈ generate_lawnmower_path W H S,
      0 ≤ p.1 ∧ p.1 ≤ W ∧ 0 ≤ p.2 ∧ p.2 ≤ H) := by
  have hfloor_le : (Nat.floor (H / S) : ℚ) * S ≤ H := by
    have h := Nat.floor_le (div_nonneg hH hS.le)
    have h2 : (Nat.floor (H / S) : ℚ) * S ≤ H / S * S :=
      mul_le_mul_of_nonneg_right h hS.le
    rwa [div_mul_cancel₀ H hS.ne'] at h2
  have hfloor_lt : H < (Nat.floor (H / S) : ℚ) * S + S := by
    have h := lawnmower_fuel_sufficient (H := H) hS
    push_cast at h
    linarith
  have hmain : generate_lawnmower_path W H S = lawnmower_spec_rows W H S := by
    unfold generate_lawnmower_path
    rw [lawnmowerAux_closed W H S hS _ 0 1 (lawnmower_fuel_sufficient hS)]
    have hcount : rowCount H S 0 = Nat.floor (H / S) + 1 := by
      unfold rowCount
      rw [if_pos hH]
      norm_num
    rw [hcount]
    unfold lawnmower_spec_rows
    congr 1
    funext j
    have hcond : ((1 : ℤ) * (-1) ^ j = 1) ↔ (j % 2 = 0) := by
      rw [one_mul, neg_one_pow_eq_one_iff_even (by norm_num), Nat.even_iff]
    have hcoord : (0 : ℚ) + (j : ℚ) * S = (j : ℚ) * S := zero_add _
    rw [hcoord]
    exact if_congr hcond rfl rfl
  refine ⟨hmain, ⟨hfloor_le, hfloor_lt⟩, ?_⟩
  intro p hp
  rw [hmain] at hp
  unfold lawnmower_spec_rows at hp
  rw [List.mem_flatMap] at hp
  obtain ⟨j, hj, hpj⟩ := hp
  rw [List.mem_range] at hj
  have hj' : (j : ℚ) * S ≤ (Nat.floor (H / S) : ℚ) * S := by
    have : (j : ℚ) ≤ (Nat.floor (H / S) : ℚ) := by
      exact_mod_cast Nat.lt_succ_iff.mp hj
    exact mul_le_mul_of_nonneg_right this hS.le
  have hy_le : (j : ℚ) * S ≤ H := le_trans hj' hfloor_le
  have hy_nonneg : (0 : ℚ) ≤ (j : ℚ) * S :=
    mul_nonneg (by positivity) hS.le
  have hcases : p = ((0 : ℚ), (j : ℚ) * S) ∨ p = (W, (j : ℚ) * S) := by
    by_cases hpar : j % 2 = 0
    · rw [if_pos hpar] at hpj
      simp only [List.mem_cons, List.mem_singleton] at hpj
      tauto
    · rw [if_neg hpar] at hpj
      simp only [List.mem_cons, List.mem_singleton] at hpj
      tauto
  rcases hcases with hp0 | hpW
  · rw [hp0]
    exact ⟨le_refl 0, hW, hy_nonneg, hy_le⟩
  · rw [hpW]
    exact ⟨hW, le_refl W, hy_nonneg, hy_le⟩

/-- Witness for `lawnmower_coverage` at the search area the agent uses:
width `5`, height `3`, step `1/2`. -/
theorem lawnmower_coverage_witness :
    generate_lawnmower_path 5 3 (1/2) = lawnmower_spec_rows 5 3 (1/2) ∧
    ((Nat.floor ((3 : ℚ) / (1/2)) : ℚ) * (1/2) ≤ 3 ∧
      (3 : ℚ) < (Nat.floor ((3 : ℚ) / (1/2)) : ℚ) * (1/2) + 1/2) ∧
    (∀ p ∈ generate_lawnmower_path 5 3 (1/2),
      0 ≤ p.1 ∧ p.1 ≤ 5 ∧ 0 ≤ p.2 ∧ p.2 ≤ 3) :=
  lawnmower_coverage 5 3 (1/2) (by norm_num) (by norm_num) (by norm_num)

/-- Witness for `servo_centering_forward` at a concrete centered error. -/
theorem servo_centering_forward_witness :
    servo_control_commands VisualServoing.init 10 = [MotorCommand.move_forward] ∧
    servoLoop VisualServoing.init false
        (fun _ => ServoInput.detected 10 none false) 1 0 [] =
      servoLoop VisualServoing.init false
        (fun _ => ServoInput.detected 10 none false) 0 1 [MotorCommand.move_forward] ∧
    servo_control_commands ⟨50, 30, 7⟩ 0 = [MotorCommand.move_forward] := by
  refine ⟨servo_centering_forward.1 VisualServoing.init 10 (by decide), ?_,
    servo_centering_forward.2.2 7⟩
  have h := servo_centering_forward.2.1 VisualServoing.init false
    (fun _ => ServoInput.detected 10 none false) 0 0 [] 10 none rfl (by decide) (by decide)
  simpa using h
